import Mathlib

/-!
Shallow embedding of the email-parsing tool of `src/agent.py`
(`parse_email_tool`, lines 18-71).

The tool takes an optional file path and an optional base64-encoded byte
string, obtains a parsed email container (the `extract_msg.Message` object),
and returns a Python dict: on success the normalized fields, on any failure
a two-key error dict.

External library calls (`base64.b64decode`, `extract_msg.Message` together
with the filesystem behind a path) are modelled by an `Env` record of
functions returning `Except String _`, where `Except.error e` models a
raised exception whose `str(e)` is `e`.  Python dicts are modelled as
ordered association lists, Python truthiness of the optional values involved
is modelled explicitly.
-/

namespace Agentic

/-- A Python value as it appears in the tool's result dict. -/
inductive PyVal where
  | none : PyVal
  | str : String → PyVal
  | list : List PyVal → PyVal

/-- A Python dict literal: an insertion-ordered association list. -/
abbrev Dict := List (String × PyVal)

/-- Raw bytes (the result of `base64.b64decode`). -/
abbrev Bytes := List Nat

/-- The fields of a `datetime.datetime` value relevant to `isoformat()`
(microsecond zero and no tzinfo, as produced by typical `.msg` headers). -/
structure PyDatetime where
  year : Nat
  month : Nat
  day : Nat
  hour : Nat
  minute : Nat
  second : Nat
deriving DecidableEq, Repr

/-- Left-pad the decimal rendering of `n` with zeros to width `w`. -/
def zpad (w n : Nat) : String :=
  String.mk (List.replicate (w - (toString n).length) '0') ++ toString n

/-- `datetime.datetime.isoformat()` for a value with zero microseconds and
no timezone: `YYYY-MM-DDTHH:MM:SS`. -/
def PyDatetime.isoformat (d : PyDatetime) : String :=
  zpad 4 d.year ++ "-" ++ zpad 2 d.month ++ "-" ++ zpad 2 d.day ++ "T" ++
    zpad 2 d.hour ++ ":" ++ zpad 2 d.minute ++ ":" ++ zpad 2 d.second

/-- The value stored in `msg.date`: either a structured `datetime.datetime`
or a raw textual date (any other value, rendered by `str`). -/
inductive MsgDate where
  | dt : PyDatetime → MsgDate
  | text : String → MsgDate
deriving DecidableEq, Repr

/-- An attachment record of the container.  `longFilename = Option.none`
models both a missing `longFilename` attribute and an attribute holding
`None`; both fail the `hasattr(att, ...) and att.longFilename` test. -/
structure Attachment where
  longFilename : Option String
deriving DecidableEq, Repr

/-- The parsed container (`extract_msg.Message`) with the attributes the
tool reads.  `Option.none` models a Python `None` attribute value.
`toField` models the attribute `msg.to` (`to` is reserved in Lean). -/
structure Msg where
  subject : Option String
  body : Option String
  sender : Option String
  toField : Option String
  date : Option MsgDate
  attachments : Option (List Attachment)
deriving DecidableEq, Repr

/-- How the container is opened: from an in-memory byte buffer
(`io.BytesIO`) or from a filesystem path. -/
inductive MsgSource where
  | fromBytes : Bytes → MsgSource
  | fromPath : String → MsgSource
deriving DecidableEq, Repr

/-- The external world of one call: `base64.b64decode`, and
`extract_msg.Message` (with the filesystem behind it) including the
subsequent attribute reads.  `Except.error e` models a raised exception
with text `e`. -/
structure Env where
  b64decode : String → Except String Bytes
  parseMessage : MsgSource → Except String Msg

/-- Python truthiness of an `Optional[str]`: `None` and `""` are falsy. -/
def pyTruthyStr : Option String → Bool
  | Option.none => false
  | Option.some s => s != ""

/-- Python truthiness of an `Optional[bytes]`: `None` and `b""` are falsy. -/
def pyTruthyBytes : Option Bytes → Bool
  | Option.none => false
  | Option.some bs => bs != []

/-- Python truthiness of `msg.date`: `None` and an empty textual date are
falsy; a `datetime.datetime` is always truthy. -/
def pyTruthyDate : Option MsgDate → Bool
  | Option.none => false
  | Option.some (MsgDate.dt _) => true
  | Option.some (MsgDate.text s) => s != ""

/-- Python truthiness of `msg.attachments`: `None` and `[]` are falsy. -/
def pyTruthyAtts : Option (List Attachment) → Bool
  | Option.none => false
  | Option.some l => l != []

/-- Lines 27-32: `email_file_bytes = None`, then decode
`email_file_bytes_b64` when it is truthy; a decode exception escapes as
`Except.error`. -/
def decodedBytes (env : Env) (email_file_bytes_b64 : Option String) :
    Except String (Option Bytes) :=
  if pyTruthyStr email_file_bytes_b64 then
    match env.b64decode (email_file_bytes_b64.getD "") with
    | Except.ok bs => Except.ok (Option.some bs)
    | Except.error e => Except.error e
  else
    Except.ok Option.none

/-- Lines 38-43: which container source the `if email_file_bytes / elif
email_file_path` chain selects; `Option.none` is the final `else` branch. -/
def msgSource (email_file_bytes : Option Bytes) (email_file_path : Option String) :
    Option MsgSource :=
  if pyTruthyBytes email_file_bytes then
    Option.some (MsgSource.fromBytes (email_file_bytes.getD []))
  else if pyTruthyStr email_file_path then
    Option.some (MsgSource.fromPath (email_file_path.getD ""))
  else
    Option.none

/-- Lines 46-51: date normalization.  `email_date_to_serialize = None`;
when `msg.date` is truthy, a `datetime.datetime` is rendered by
`isoformat()` and any other value by `str(...)`. -/
def email_date_to_serialize (date : Option MsgDate) : Option String :=
  if pyTruthyDate date then
    match date with
    | Option.some (MsgDate.dt d) => Option.some d.isoformat
    | Option.some (MsgDate.text s) => Option.some s
    | Option.none => Option.none
  else
    Option.none

/-- The body of the loop of lines 55-57: append `str(att.longFilename)`
when the attribute exists and is truthy. -/
def attStep (acc : List String) (att : Attachment) : List String :=
  match att.longFilename with
  | Option.some s => if s != "" then acc ++ [s] else acc
  | Option.none => acc

/-- Lines 53-57: `attachments_list = []`, then the loop over
`msg.attachments` when that is truthy. -/
def attachments_list (attachments : Option (List Attachment)) : List String :=
  if pyTruthyAtts attachments then (attachments.getD []).foldl attStep []
  else []

/-- `str(x) if x else None` for an optional string attribute. -/
def strOrNone (v : Option String) : PyVal :=
  if pyTruthyStr v then PyVal.str (v.getD "") else PyVal.none

/-- Render an `Option String` as the Python value stored in the dict. -/
def pyOfOptStr : Option String → PyVal
  | Option.none => PyVal.none
  | Option.some s => PyVal.str s

/-- Lines 59-67: the success dict `parsed_dict`. -/
def parsed_dict (msg : Msg) : Dict :=
  [("status", PyVal.str "success"),
   ("subject", strOrNone msg.subject),
   ("body", strOrNone msg.body),
   ("sender", strOrNone msg.sender),
   ("to", strOrNone msg.toField),
   ("date", pyOfOptStr (email_date_to_serialize msg.date)),
   ("attachments", PyVal.list ((attachments_list msg.attachments).map PyVal.str))]

/-- The two-key error dict returned on every failure path. -/
def errorDict (message : String) : Dict :=
  [("status", PyVal.str "error"), ("message", PyVal.str message)]

/-- `parse_email_tool` of `src/agent.py`, lines 18-71.  The `tool_context`
parameter is unused by the source and omitted.  The final catch-all
`except` turns any exception raised while opening or parsing the container
into the `"Failed to parse email: ..."` error dict. -/
def parse_email_tool (env : Env) (email_file_path : Option String)
    (email_file_bytes_b64 : Option String) : Dict :=
  match decodedBytes env email_file_bytes_b64 with
  | Except.error e => errorDict ("Failed to decode base64 content: " ++ e)
  | Except.ok email_file_bytes =>
    if !pyTruthyBytes email_file_bytes && !pyTruthyStr email_file_path then
      errorDict "No email file path or base64 content provided."
    else
      match msgSource email_file_bytes email_file_path with
      | Option.none => errorDict "No valid email input provided to parse."
      | Option.some src =>
        match env.parseMessage src with
        | Except.ok msg => parsed_dict msg
        | Except.error e => errorDict ("Failed to parse email: " ++ e)

/-! ### The attachment names the specification describes -/

/-- The attachment filenames as the specification words them: the display
filenames of exactly those attachment records exposing a non-empty long
filename, in the container's order. -/
def longNames (atts : List Attachment) : List String :=
  atts.filterMap (fun att =>
    match att.longFilename with
    | Option.some s => if s = "" then Option.none else Option.some s
    | Option.none => Option.none)

/-- A run of the tool that reaches a successfully parsed container `msg`:
decoding succeeded (or was skipped), a source was selected, and
`extract_msg.Message` returned `msg`. -/
def reaches (env : Env) (path b64 : Option String) (msg : Msg) : Prop :=
  ∃ bs src, decodedBytes env b64 = Except.ok bs ∧
    msgSource bs path = Option.some src ∧ env.parseMessage src = Except.ok msg

/-- A dict entry that is either absent (`None`) or a non-empty string;
never the empty string standing in for absence. -/
def neverEmptyStrField (v : Option PyVal) : Prop :=
  ∃ w, v = Option.some w ∧
    (w = PyVal.none ∨ ∃ s, w = PyVal.str s ∧ s ≠ "")

/-- A Python value that is either `None` or a string. -/
def isOptStrVal (v : PyVal) : Prop :=
  v = PyVal.none ∨ ∃ s, v = PyVal.str s

/-- A concrete parsed container used to exercise the theorems: a subject,
a structured date, and attachments with and without a long filename. -/
def msgW : Msg :=
  { subject := Option.some "Invoice 123",
    body := Option.some "please pay",
    sender := Option.some "a@b.c",
    toField := Option.some "d@e.f",
    date := Option.some (MsgDate.dt ⟨2024, 1, 2, 3, 4, 5⟩),
    attachments := Option.some
      [⟨Option.some "invoice.pdf"⟩, ⟨Option.none⟩, ⟨Option.some ""⟩,
       ⟨Option.some "notes.txt"⟩] }

/-- A concrete world in which decoding and parsing both succeed. -/
def envW : Env :=
  { b64decode := fun _ => Except.ok [1, 2, 3],
    parseMessage := fun _ => Except.ok msgW }

/-- A second record of the same world behavior as `envW`. -/
def envW2 : Env :=
  { b64decode := fun _ => Except.ok [1, 2, 3],
    parseMessage := fun _ => Except.ok msgW }

/-- A concrete world in which `base64.b64decode` raises. -/
def envDecodeFail : Env :=
  { b64decode := fun _ => Except.error "Invalid base64-encoded string",
    parseMessage := fun _ => Except.ok msgW }

/-- A concrete world in which `base64.b64decode` returns the empty byte
string. -/
def envEmptyBytes : Env :=
  { b64decode := fun _ => Except.ok [],
    parseMessage := fun _ => Except.ok msgW }

/-! ### Helper lemmas -/

lemma length_append_str (s t : String) : (s ++ t).length = s.length + t.length := by
  cases s with
  | mk a =>
    cases t with
    | mk b =>
      show (String.mk (a ++ b)).length = (String.mk a).length + (String.mk b).length
      simp [String.length]

lemma isoformat_ne_empty (d : PyDatetime) : d.isoformat ≠ "" := by
  intro h
  have hlen : d.isoformat.length = 0 := by rw [h]; rfl
  rw [PyDatetime.isoformat] at hlen
  have hone : ("-" : String).length = 1 := rfl
  have htwo : ("T" : String).length = 1 := rfl
  have hthree : (":" : String).length = 1 := rfl
  simp only [length_append_str, hone, htwo, hthree] at hlen
  omega

lemma msgSource_guard {bs : Option Bytes} {p : Option String} {src : MsgSource}
    (h : msgSource bs p = Option.some src) :
    (!pyTruthyBytes bs && !pyTruthyStr p) = false := by
  unfold msgSource at h
  by_cases hb : pyTruthyBytes bs
  · simp [hb]
  · by_cases hp : pyTruthyStr p
    · simp [hb, hp]
    · simp [hb, hp] at h

lemma msgSource_of_guard {bs : Option Bytes} {p : Option String}
    (h : ¬((!pyTruthyBytes bs && !pyTruthyStr p) = true)) :
    ∃ src, msgSource bs p = Option.some src := by
  by_cases hb : pyTruthyBytes bs
  · exact ⟨MsgSource.fromBytes (bs.getD []), by simp [msgSource, hb]⟩
  · by_cases hp : pyTruthyStr p
    · exact ⟨MsgSource.fromPath (p.getD ""), by simp [msgSource, hb, hp]⟩
    · exact absurd (by simp [hb, hp]) h

lemma run_success {env : Env} {path b64 : Option String} {msg : Msg}
    (h : reaches env path b64 msg) :
    parse_email_tool env path b64 = parsed_dict msg := by
  obtain ⟨bs, src, hdec, hsrc, hmsg⟩ := h
  unfold parse_email_tool
  rw [hdec]
  simp [msgSource_guard hsrc, hsrc, hmsg]

lemma run_decode_error {env : Env} {b : Option String} {e : String}
    (hdec : decodedBytes env b = Except.error e) (p : Option String) :
    parse_email_tool env p b =
      errorDict ("Failed to decode base64 content: " ++ e) := by
  unfold parse_email_tool
  rw [hdec]

lemma run_missing {env : Env} {b p : Option String} {bs : Option Bytes}
    (hdec : decodedBytes env b = Except.ok bs)
    (hg : (!pyTruthyBytes bs && !pyTruthyStr p) = true) :
    parse_email_tool env p b =
      errorDict "No email file path or base64 content provided." := by
  unfold parse_email_tool
  rw [hdec]
  simp [hg]

lemma run_parse_error {env : Env} {b p : Option String} {bs : Option Bytes}
    {src : MsgSource} {e : String}
    (hdec : decodedBytes env b = Except.ok bs)
    (hsrc : msgSource bs p = Option.some src)
    (hmsg : env.parseMessage src = Except.error e) :
    parse_email_tool env p b = errorDict ("Failed to parse email: " ++ e) := by
  unfold parse_email_tool
  rw [hdec]
  simp [msgSource_guard hsrc, hsrc, hmsg]

lemma lookup_errorDict_status (m : String) :
    (errorDict m).lookup ("status") = Option.some (PyVal.str "error") := rfl

lemma lookup_parsed_dict_status (msg : Msg) :
    (parsed_dict msg).lookup ("status") = Option.some (PyVal.str "success") := rfl

lemma lookup_parsed_dict_subject (msg : Msg) :
    (parsed_dict msg).lookup ("subject") = Option.some (strOrNone msg.subject) := rfl

lemma lookup_parsed_dict_body (msg : Msg) :
    (parsed_dict msg).lookup ("body") = Option.some (strOrNone msg.body) := rfl

lemma lookup_parsed_dict_sender (msg : Msg) :
    (parsed_dict msg).lookup ("sender") = Option.some (strOrNone msg.sender) := rfl

lemma lookup_parsed_dict_to (msg : Msg) :
    (parsed_dict msg).lookup ("to") = Option.some (strOrNone msg.toField) := rfl

lemma lookup_parsed_dict_date (msg : Msg) :
    (parsed_dict msg).lookup ("date") =
      Option.some (pyOfOptStr (email_date_to_serialize msg.date)) := rfl

lemma lookup_parsed_dict_attachments (msg : Msg) :
    (parsed_dict msg).lookup ("attachments") =
      Option.some (PyVal.list
        (List.map PyVal.str (attachments_list msg.attachments))) := rfl

lemma errorDict_not_success {m : String}
    (h : (errorDict m).lookup ("status") = Option.some (PyVal.str "success")) :
    False := by
  rw [lookup_errorDict_status] at h
  injection h with h1
  injection h1 with h2
  exact absurd h2 (by decide)

lemma success_cases {env : Env} {p b : Option String}
    (h : (parse_email_tool env p b).lookup ("status") =
      Option.some (PyVal.str "success")) :
    ∃ msg, reaches env p b msg ∧ parse_email_tool env p b = parsed_dict msg := by
  cases hdec : decodedBytes env b with
  | error e =>
    rw [run_decode_error hdec p] at h
    exact (errorDict_not_success h).elim
  | ok bs =>
    by_cases hg : (!pyTruthyBytes bs && !pyTruthyStr p) = true
    · rw [run_missing hdec hg] at h
      exact (errorDict_not_success h).elim
    · obtain ⟨src, hsrc⟩ := msgSource_of_guard hg
      cases hmsg : env.parseMessage src with
      | error e =>
        rw [run_parse_error hdec hsrc hmsg] at h
        exact (errorDict_not_success h).elim
      | ok msg =>
        exact ⟨msg, ⟨bs, src, hdec, hsrc, hmsg⟩,
          run_success ⟨bs, src, hdec, hsrc, hmsg⟩⟩

lemma foldl_attStep (l : List Attachment) (acc : List String) :
    l.foldl attStep acc = acc ++ longNames l := by
  induction l generalizing acc with
  | nil => simp [longNames]
  | cons a l ih =>
    rw [List.foldl_cons, ih]
    cases hl : a.longFilename with
    | none => simp [longNames, attStep, hl]
    | some s =>
      by_cases hs : s = ""
      · simp [longNames, attStep, hl, hs]
      · simp [longNames, attStep, hl, hs]

lemma attachments_list_eq (atts : Option (List Attachment)) :
    attachments_list atts = longNames (atts.getD []) := by
  cases atts with
  | none => rfl
  | some l =>
    unfold attachments_list
    by_cases hl : pyTruthyAtts (Option.some l) = true
    · rw [if_pos hl]
      simpa using foldl_attStep l []
    · rw [if_neg hl]
      have hnil : l = [] := by simpa [pyTruthyAtts] using hl
      simp [hnil, longNames]

lemma strOrNone_spec (v : Option String) :
    strOrNone v = PyVal.none ∨ ∃ s, strOrNone v = PyVal.str s ∧ s ≠ "" := by
  cases v with
  | none => exact Or.inl rfl
  | some s =>
    by_cases hs : s = ""
    · exact Or.inl (by simp [strOrNone, pyTruthyStr, hs])
    · exact Or.inr ⟨s, by simp [strOrNone, pyTruthyStr, hs], hs⟩

lemma date_value_spec (date : Option MsgDate) :
    pyOfOptStr (email_date_to_serialize date) = PyVal.none ∨
      ∃ s, pyOfOptStr (email_date_to_serialize date) = PyVal.str s ∧ s ≠ "" := by
  cases date with
  | none => exact Or.inl rfl
  | some dd =>
    cases dd with
    | dt d =>
      exact Or.inr ⟨d.isoformat,
        by simp [email_date_to_serialize, pyTruthyDate, pyOfOptStr],
        isoformat_ne_empty d⟩
    | text s =>
      by_cases hs : s = ""
      · exact Or.inl (by simp [email_date_to_serialize, pyTruthyDate, hs, pyOfOptStr])
      · exact Or.inr ⟨s,
          by simp [email_date_to_serialize, pyTruthyDate, hs, pyOfOptStr], hs⟩

lemma isOptStrVal_strOrNone (v : Option String) : isOptStrVal (strOrNone v) := by
  rcases strOrNone_spec v with h | ⟨s, hs, -⟩
  · exact Or.inl h
  · exact Or.inr ⟨s, hs⟩

lemma isOptStrVal_date (date : Option MsgDate) :
    isOptStrVal (pyOfOptStr (email_date_to_serialize date)) := by
  rcases date_value_spec date with h | ⟨s, hs, -⟩
  · exact Or.inl h
  · exact Or.inr ⟨s, hs⟩

/-! ### The claims -/

/-- Claim C1: whenever a (truthy) base64 byte string is supplied and the
decoder raises, the tool returns the error dict whose message carries the
decode error text — for every file path alike, so the path is never
consulted as a fallback. -/
theorem c1_base64_failure_ignores_path (env : Env) (b e : String)
    (hb : b ≠ "") (hdec : env.b64decode b = Except.error e) :
    ∀ p : Option String,
      parse_email_tool env p (Option.some b) =
        [("status", PyVal.str "error"),
         ("message", PyVal.str ("Failed to decode base64 content: " ++ e))] := by
  intro p
  have hd : decodedBytes env (Option.some b) = Except.error e := by
    simp [decodedBytes, pyTruthyStr, bne_iff_ne, hb, hdec]
  exact run_decode_error hd p

/-- Witness for C1: a concrete run with a failing decoder and a file path
also supplied. -/
theorem c1_witness :
    parse_email_tool envDecodeFail (Option.some "mail.msg") (Option.some "xx") =
      [("status", PyVal.str "error"),
       ("message", PyVal.str
         "Failed to decode base64 content: Invalid base64-encoded string")] :=
  c1_base64_failure_ignores_path envDecodeFail "xx" "Invalid base64-encoded string"
    (by decide) rfl (Option.some "mail.msg")

/-- Claim C2: no exception escapes the tool: a decode exception and a
container-open/parse exception each become the two-key error dict carrying
the underlying error text, and every error result is exactly
status-plus-message, with no partially populated success field. -/
theorem c2_exceptions_become_error_dict (env : Env) (p b : Option String) :
    (∀ e, decodedBytes env b = Except.error e →
      parse_email_tool env p b =
        [("status", PyVal.str "error"),
         ("message", PyVal.str ("Failed to decode base64 content: " ++ e))]) ∧
    (∀ bs src e, decodedBytes env b = Except.ok bs →
      msgSource bs p = Option.some src →
      env.parseMessage src = Except.error e →
      parse_email_tool env p b =
        [("status", PyVal.str "error"),
         ("message", PyVal.str ("Failed to parse email: " ++ e))]) ∧
    ((parse_email_tool env p b).lookup ("status") =
        Option.some (PyVal.str "error") →
      ∃ m, parse_email_tool env p b =
        [("status", PyVal.str "error"), ("message", PyVal.str m)]) := by
  refine ⟨fun e he => run_decode_error he p,
    fun bs src e hdec hsrc hmsg => run_parse_error hdec hsrc hmsg, ?_⟩
  intro herr
  cases hdec : decodedBytes env b with
  | error e => exact ⟨_, run_decode_error hdec p⟩
  | ok bs =>
    by_cases hg : (!pyTruthyBytes bs && !pyTruthyStr p) = true
    · exact ⟨_, run_missing hdec hg⟩
    · obtain ⟨src, hsrc⟩ := msgSource_of_guard hg
      cases hmsg : env.parseMessage src with
      | error e => exact ⟨_, run_parse_error hdec hsrc hmsg⟩
      | ok msg =>
        rw [run_success ⟨bs, src, hdec, hsrc, hmsg⟩,
          lookup_parsed_dict_status msg] at herr
        injection herr with h1
        injection h1 with h2
        exact absurd h2 (by decide)

/-- Witness for C2: its decode-exception conjunct at a concrete failing
decoder. -/
theorem c2_witness :
    parse_email_tool envDecodeFail Option.none (Option.some "xx") =
      [("status", PyVal.str "error"),
       ("message", PyVal.str
         ("Failed to decode base64 content: " ++ "Invalid base64-encoded string"))] :=
  (c2_exceptions_become_error_dict envDecodeFail Option.none
    (Option.some "xx")).1 "Invalid base64-encoded string" rfl

/-- Claim C3: on a successfully parsed container, the date field is the
`isoformat` rendering of a structured datetime, the text itself for a
non-empty textual date, and no value when the container has no date. -/
theorem c3_date_normalization (env : Env) (p b : Option String) (msg : Msg)
    (h : reaches env p b msg) :
    (∀ d, msg.date = Option.some (MsgDate.dt d) →
      (parse_email_tool env p b).lookup ("date") =
        Option.some (PyVal.str d.isoformat)) ∧
    (∀ s, msg.date = Option.some (MsgDate.text s) → s ≠ "" →
      (parse_email_tool env p b).lookup ("date") =
        Option.some (PyVal.str s)) ∧
    (msg.date = Option.none →
      (parse_email_tool env p b).lookup ("date") = Option.some PyVal.none) := by
  rw [run_success h]
  refine ⟨?_, ?_, ?_⟩
  · intro d hd
    rw [lookup_parsed_dict_date, hd]
    simp [email_date_to_serialize, pyTruthyDate, pyOfOptStr]
  · intro s hs hne
    rw [lookup_parsed_dict_date, hs]
    simp [email_date_to_serialize, pyTruthyDate, pyOfOptStr, bne_iff_ne, hne]
  · intro hn
    rw [lookup_parsed_dict_date, hn]
    rfl

/-- Witness for C3: the structured-date case at a concrete container. -/
theorem c3_witness :
    (parse_email_tool envW Option.none (Option.some "QUFB")).lookup ("date") =
      Option.some (PyVal.str (PyDatetime.isoformat ⟨2024, 1, 2, 3, 4, 5⟩)) :=
  (c3_date_normalization envW Option.none (Option.some "QUFB") msgW
      ⟨Option.some [1, 2, 3], MsgSource.fromBytes [1, 2, 3], rfl, rfl, rfl⟩).1
    ⟨2024, 1, 2, 3, 4, 5⟩ rfl

/-- Claim C4: on a successfully parsed container, the attachments field
holds exactly the display filenames of those attachment records with a
non-empty long filename, in the container's order; the rest are omitted. -/
theorem c4_attachments_filtered_in_order (env : Env) (p b : Option String)
    (msg : Msg) (h : reaches env p b msg) :
    (parse_email_tool env p b).lookup ("attachments") =
      Option.some (PyVal.list
        (List.map PyVal.str (longNames (msg.attachments.getD [])))) := by
  rw [run_success h, lookup_parsed_dict_attachments, attachments_list_eq]

/-- Witness for C4: of the four concrete attachments of `msgW`, exactly
the two with a non-empty long filename survive, in order. -/
theorem c4_witness :
    (parse_email_tool envW Option.none (Option.some "QUFB")).lookup
        ("attachments") =
      Option.some (PyVal.list [PyVal.str "invoice.pdf", PyVal.str "notes.txt"]) :=
  c4_attachments_filtered_in_order envW Option.none (Option.some "QUFB") msgW
    ⟨Option.some [1, 2, 3], MsgSource.fromBytes [1, 2, 3], rfl, rfl, rfl⟩

/-- Claim C5: in every success result, each of subject, body, sender, to
and date is either absent (`None`) or a non-empty string; none of them is
ever the empty string standing in for absence. -/
theorem c5_optional_fields_never_empty (env : Env) (p b : Option String)
    (h : (parse_email_tool env p b).lookup ("status") =
      Option.some (PyVal.str "success")) :
    neverEmptyStrField ((parse_email_tool env p b).lookup ("subject")) ∧
    neverEmptyStrField ((parse_email_tool env p b).lookup ("body")) ∧
    neverEmptyStrField ((parse_email_tool env p b).lookup ("sender")) ∧
    neverEmptyStrField ((parse_email_tool env p b).lookup ("to")) ∧
    neverEmptyStrField ((parse_email_tool env p b).lookup ("date")) := by
  obtain ⟨msg, -, heq⟩ := success_cases h
  rw [heq]
  exact ⟨⟨_, lookup_parsed_dict_subject msg, strOrNone_spec _⟩,
    ⟨_, lookup_parsed_dict_body msg, strOrNone_spec _⟩,
    ⟨_, lookup_parsed_dict_sender msg, strOrNone_spec _⟩,
    ⟨_, lookup_parsed_dict_to msg, strOrNone_spec _⟩,
    ⟨_, lookup_parsed_dict_date msg, date_value_spec _⟩⟩

/-- Witness for C5: the concrete success run through a file path. -/
theorem c5_witness :
    neverEmptyStrField ((parse_email_tool envW (Option.some "mail.msg")
      Option.none).lookup ("subject")) ∧
    neverEmptyStrField ((parse_email_tool envW (Option.some "mail.msg")
      Option.none).lookup ("body")) ∧
    neverEmptyStrField ((parse_email_tool envW (Option.some "mail.msg")
      Option.none).lookup ("sender")) ∧
    neverEmptyStrField ((parse_email_tool envW (Option.some "mail.msg")
      Option.none).lookup ("to")) ∧
    neverEmptyStrField ((parse_email_tool envW (Option.some "mail.msg")
      Option.none).lookup ("date")) :=
  c5_optional_fields_never_empty envW (Option.some "mail.msg") Option.none rfl

/-- Claim C6: with neither input supplied the tool returns the error dict
whose message is the missing-input text, and that text contains
"No email file". -/
theorem c6_missing_input (env : Env) :
    parse_email_tool env Option.none Option.none =
      [("status", PyVal.str "error"),
       ("message", PyVal.str "No email file path or base64 content provided.")] ∧
    ∃ rest, "No email file path or base64 content provided." =
      "No email file" ++ rest :=
  ⟨rfl, ⟨" path or base64 content provided.", rfl⟩⟩

/-- Claim C7: every result is a status-tagged dict: either the success
dict with exactly the seven keys, attachments a list of strings, or the
error dict with exactly status and message, message a string. -/
theorem c7_result_shape (env : Env) (p b : Option String) :
    (∃ su bo se t d l,
      parse_email_tool env p b =
        [("status", PyVal.str "success"), ("subject", su), ("body", bo),
         ("sender", se), ("to", t), ("date", d),
         ("attachments", PyVal.list (List.map PyVal.str l))] ∧
      isOptStrVal su ∧ isOptStrVal bo ∧ isOptStrVal se ∧ isOptStrVal t ∧
      isOptStrVal d) ∨
    (∃ m, parse_email_tool env p b =
      [("status", PyVal.str "error"), ("message", PyVal.str m)]) := by
  cases hdec : decodedBytes env b with
  | error e => exact Or.inr ⟨_, run_decode_error hdec p⟩
  | ok bs =>
    by_cases hg : (!pyTruthyBytes bs && !pyTruthyStr p) = true
    · exact Or.inr ⟨_, run_missing hdec hg⟩
    · obtain ⟨src, hsrc⟩ := msgSource_of_guard hg
      cases hmsg : env.parseMessage src with
      | error e => exact Or.inr ⟨_, run_parse_error hdec hsrc hmsg⟩
      | ok msg =>
        exact Or.inl ⟨strOrNone msg.subject, strOrNone msg.body,
          strOrNone msg.sender, strOrNone msg.toField,
          pyOfOptStr (email_date_to_serialize msg.date),
          attachments_list msg.attachments,
          run_success ⟨bs, src, hdec, hsrc, hmsg⟩,
          isOptStrVal_strOrNone _, isOptStrVal_strOrNone _,
          isOptStrVal_strOrNone _, isOptStrVal_strOrNone _,
          isOptStrVal_date _⟩

/-- Claim C8: determinism and absence of hidden state: the result is a
function of the supplied options and of the answers of the consulted
external world (decoder and container parser); two calls whose worlds
answer identically yield identical output. -/
theorem c8_deterministic (env1 env2 : Env) (p b : Option String)
    (hdec : ∀ s, env1.b64decode s = env2.b64decode s)
    (hmsg : ∀ src, env1.parseMessage src = env2.parseMessage src) :
    parse_email_tool env1 p b = parse_email_tool env2 p b := by
  have h1 : env1 = env2 := by
    cases env1 with
    | mk f1 g1 =>
      cases env2 with
      | mk f2 g2 =>
        have hf : f1 = f2 := funext hdec
        have hg : g1 = g2 := funext hmsg
        rw [hf, hg]
  rw [h1]

/-- Witness for C8: two record-distinct but behaviorally equal worlds. -/
theorem c8_witness :
    parse_email_tool envW (Option.some "mail.msg") Option.none =
      parse_email_tool envW2 (Option.some "mail.msg") Option.none :=
  c8_deterministic envW envW2 (Option.some "mail.msg") Option.none
    (fun _ => rfl) (fun _ => rfl)

/-- Claim C9: a base64 string that decodes to the empty byte string is
treated as absent: with a non-empty path the path is parsed instead, and
with no path the missing-input error is returned instead of a parse of the
empty buffer. -/
theorem c9_empty_bytes_treated_absent (env : Env) (b : String)
    (hb : b ≠ "") (hdec : env.b64decode b = Except.ok []) :
    (∀ pa : String, pa ≠ "" →
      parse_email_tool env (Option.some pa) (Option.some b) =
        (match env.parseMessage (MsgSource.fromPath pa) with
         | Except.ok msg => parsed_dict msg
         | Except.error e => errorDict ("Failed to parse email: " ++ e))) ∧
    parse_email_tool env Option.none (Option.some b) =
      [("status", PyVal.str "error"),
       ("message", PyVal.str "No email file path or base64 content provided.")] := by
  have hd : decodedBytes env (Option.some b) = Except.ok (Option.some []) := by
    simp [decodedBytes, pyTruthyStr, bne_iff_ne, hb, hdec]
  constructor
  · intro pa hpa
    have hsrc : msgSource (Option.some []) (Option.some pa) =
        Option.some (MsgSource.fromPath pa) := by
      simp [msgSource, pyTruthyBytes, pyTruthyStr, bne_iff_ne, hpa]
    cases hmsg : env.parseMessage (MsgSource.fromPath pa) with
    | ok msg => exact run_success ⟨_, _, hd, hsrc, hmsg⟩
    | error e => exact run_parse_error hd hsrc hmsg
  · exact run_missing hd rfl

/-- Witness for C9: a concrete decoder returning empty bytes and no path
supplied. -/
theorem c9_witness :
    parse_email_tool envEmptyBytes Option.none (Option.some "AAAA") =
      [("status", PyVal.str "error"),
       ("message", PyVal.str "No email file path or base64 content provided.")] :=
  (c9_empty_bytes_treated_absent envEmptyBytes "AAAA" (by decide) rfl).2

/-- Claim C10: in every success result the attachments field is a list,
possibly empty, never `None`: a container with no attachments yields the
empty list. -/
theorem c10_attachments_always_list (env : Env) (p b : Option String)
    (msg : Msg) (h : reaches env p b msg) :
    (∃ l : List String,
      (parse_email_tool env p b).lookup ("attachments") =
        Option.some (PyVal.list (List.map PyVal.str l))) ∧
    (msg.attachments = Option.none →
      (parse_email_tool env p b).lookup ("attachments") =
        Option.some (PyVal.list [])) ∧
    (parse_email_tool env p b).lookup ("attachments") ≠
      Option.some PyVal.none := by
  rw [run_success h, lookup_parsed_dict_attachments]
  refine ⟨⟨attachments_list msg.attachments, rfl⟩, ?_, ?_⟩
  · intro hn
    rw [hn]
    rfl
  · intro hcontra
    injection hcontra with h1
    exact PyVal.noConfusion h1

/-- Witness for C10: the attachments entry of a concrete success run is a
list, not `None`. -/
theorem c10_witness :
    (parse_email_tool envW (Option.some "mail.msg") Option.none).lookup
        ("attachments") ≠ Option.some PyVal.none :=
  (c10_attachments_always_list envW (Option.some "mail.msg") Option.none msgW
    ⟨Option.none, MsgSource.fromPath "mail.msg", rfl, rfl, rfl⟩).2.2

end Agentic
